import Mathlib

/-!
Verification of the loop-scrubbing engine in
`src/components/Picker/Picker.tsx` (gsap-scroll-drag-picker).

The numeric core of the component is embedded over `ℚ`:
pixel positions, scroll positions, timeline times and offsets are
rationals, iteration counters are integers.  The gsap utility
functions used by the component (`gsap.utils.wrap`, `gsap.utils.clamp`,
`gsap.utils.snap`) are embedded with their JavaScript semantics:
the JS `%` operator is the truncated-division remainder, `Math.round`
rounds halves up (towards `+∞`, which is exactly Mathlib's `round`),
and `Math.floor` is the real floor.
-/

namespace Picker

/-- Truncation toward zero: the rounding used by the JS `%` remainder. -/
def jsTrunc (q : ℚ) : ℤ := if 0 ≤ q then ⌊q⌋ else ⌈q⌉

/-- The JS remainder `a % b` (remainder of truncated division). -/
def jsMod (a b : ℚ) : ℚ := a - b * jsTrunc (a / b)

/-- The gsap utility `gsap.utils.wrap(min, max, value)`:
`((value - min) % range + range) % range + min` with `range = max - min`,
where `%` is the JS remainder. -/
def gsapWrap (lo hi v : ℚ) : ℚ :=
  jsMod (jsMod (v - lo) (hi - lo) + (hi - lo)) (hi - lo) + lo

/-- The gsap utility `gsap.utils.clamp(min, max, value)` =
`Math.min(max, Math.max(min, value))`. -/
def clamp (lo hi v : ℚ) : ℚ := min hi (max lo v)

/-- Picker.tsx line 14: `wrapTime = gsap.utils.wrap(0, seamlessLoop.duration())`.
The first argument `d` is the seamless loop's duration. -/
def wrapTime (d v : ℚ) : ℚ := gsapWrap 0 d v

/-- Picker.tsx line 80: `snapTime = gsap.utils.snap(spacing)`.
The gsap utility `gsap.utils.snap(inc)` quantizes `v` to
`Math.round(v / inc) * inc`; JS `Math.round` rounds halves towards `+∞`,
which is Mathlib's `round`. -/
def snapTime (sp v : ℚ) : ℚ := (round (v / sp) : ℚ) * sp

/-- Picker.tsx line 79: `const spacing = 0.1`. -/
def spacing : ℚ := 1 / 10

/-- Number of `li` cards in the JSX markup (indices 0 to 30). -/
def numCards : ℕ := 31

/-- Picker.tsx line 108: `gsap.utils.wrap(0, 1, progress)`. -/
def wrap01 (p : ℚ) : ℚ := gsapWrap 0 1 p

/-- Picker.tsx lines 104-109: converts a progress value (which may lie
outside `[0, 1]` while wrapping) into a scroll value at least 1 away from
either end of the scroll range.  `endv` is `trigger.end`. -/
def progressToScroll (endv p : ℚ) : ℚ := clamp 1 (endv - 1) (wrap01 p * endv)

/-- The single externally visible effect of one scroll-driver update
(Picker.tsx lines 88-99): either a call `wrap(iterationDelta, scrollTo)`
or an assignment to `scrub.vars.offset` followed by
`scrub.invalidate().restart()`. -/
inductive DriverAction where
  | wrapCall (iterationDelta : ℤ) (scrollTo : ℚ)
  | setOffsetAndRestart (offset : ℚ)
deriving DecidableEq

/-- The quantities read by the `ScrollTrigger` `onUpdate` callback:
the scrubber's iteration counter, `self.scroll()`, `self.direction`,
`trigger.end` (named `endPos`, since `end` is reserved) and
`seamlessLoop.duration()`. -/
structure ScrollState where
  iteration : ℤ
  scroll : ℚ
  direction : ℤ
  endPos : ℚ
  duration : ℚ
deriving DecidableEq

/-- ScrollTrigger's `self.progress` for a trigger with `start: 0`:
`scroll / end`. -/
def selfProgress (st : ScrollState) : ℚ := st.scroll / st.endPos

/-- Picker.tsx lines 88-99, the `onUpdate` callback of the ScrollTrigger:
`if (scroll > self.end - 1) wrap(1, 1);`
`else if (scroll < 1 && self.direction < 0) wrap(-1, self.end - 1);`
`else { scrub.vars.offset = (iteration + self.progress) * seamlessLoop.duration(); scrub.invalidate().restart(); }`. -/
def onUpdate (st : ScrollState) : DriverAction :=
  if st.scroll > st.endPos - 1 then
    DriverAction.wrapCall 1 1
  else if st.scroll < 1 ∧ st.direction < 0 then
    DriverAction.wrapCall (-1) (st.endPos - 1)
  else
    DriverAction.setOffsetAndRestart ((st.iteration + selfProgress st) * st.duration)

/-- Result of one call to `scrollToOffset` (Picker.tsx lines 122-133):
the new iteration counter, the scroll position handed to
`trigger.scroll(...)`, and whether the `wrap(...)` branch was taken. -/
structure SnapResult where
  iteration : ℤ
  scrollCmd : ℚ
  wrapped : Bool
deriving DecidableEq

/-- Picker.tsx lines 122-133:
`const snappedTime = snapTime(offset);`
`const progress = (snappedTime - seamlessLoop.duration() * iteration) / seamlessLoop.duration();`
`const scroll = progressToScroll(progress);`
`if (progress >= 1 || progress < 0) return wrap(Math.floor(progress), scroll);`
`trigger.scroll(scroll);`
Here `d` is `seamlessLoop.duration()`, `sp` the snap increment (`spacing`),
`endv` is `trigger.end` and `iter` the current iteration.  `wrap` adds its
first argument to the iteration counter; JS `Math.floor` is `⌊·⌋`. -/
def scrollToOffset (d sp endv : ℚ) (iter : ℤ) (off : ℚ) : SnapResult :=
  if (snapTime sp off - d * iter) / d ≥ 1 ∨ (snapTime sp off - d * iter) / d < 0 then
    { iteration := iter + ⌊(snapTime sp off - d * iter) / d⌋
      scrollCmd := progressToScroll endv ((snapTime sp off - d * iter) / d)
      wrapped := true }
  else
    { iteration := iter
      scrollCmd := progressToScroll endv ((snapTime sp off - d * iter) / d)
      wrapped := false }

/-- Picker.tsx lines 117-119: the `scrollEnd` listener calls
`scrollToOffset(scrub.vars.offset)`.  Its effect, if any, as a snap. -/
def onScrollEnd (d sp endv : ℚ) (iter : ℤ) (off : ℚ) : Option SnapResult :=
  some (scrollToOffset d sp endv iter off)

/-- Picker.tsx lines 40-42: the `onDragEnd` handler's body is empty (the
call `scrollToOffset(scrub.vars.offset)` is commented out), so releasing a
drag performs no snap at all. -/
def onDragEnd (d sp endv : ℚ) (iter : ℤ) (off : ℚ) : Option SnapResult :=
  none

/-- Picker.tsx line 37: the target offset computed by the `onDrag`
handler, `startOffset + (startX - x) * 0.001`. -/
def dragTargetOffset (startOffset startX x : ℚ) : ℚ :=
  startOffset + (startX - x) * (1 / 1000)

/-- Picker.tsx lines 36-39: `onDrag` writes the target offset straight
into `scrub.vars.offset` and restarts the scrub tween; it issues no
scroll-range command and no wrap. -/
def onDrag (startOffset startX x : ℚ) : DriverAction :=
  DriverAction.setOffsetAndRestart (dragTargetOffset startOffset startX x)

/-- The numeric summary of the timeline returned by `buildSeamlessLoop`
(Picker.tsx lines 146-186): `cycleDuration = spacing * items.length`; the
scrub of the raw sequence starts at `cycleDuration + dur / 2` and runs
for `cycleDuration`, so the seamless loop's own duration is
`cycleDuration`.  `dur` is the duration of one `animateFunc()` animation. -/
structure SeamlessLoop where
  cycleDuration : ℚ
  dur : ℚ
  scrubStart : ℚ
  loopDuration : ℚ
deriving DecidableEq

/-- Picker.tsx lines 146-186, `buildSeamlessLoop(items, spacing, animateFunc)`:
the function performs no validation of its inputs; it always computes
`cycleDuration = spacing * items.length` and returns the timeline. -/
def buildSeamlessLoop (n : ℕ) (sp dur : ℚ) : SeamlessLoop :=
  { cycleDuration := sp * n
    dur := dur
    scrubStart := sp * n + dur / 2
    loopDuration := sp * n }

/-! Helper lemmas about the JS remainder. -/

/-- For positive `b` and `a / b ≥ 0`, the JS remainder is `b` times the
fractional part of `a / b`. -/
lemma jsMod_eq_fract (a b : ℚ) (hb : 0 < b) (ha : 0 ≤ a / b) :
    jsMod a b = b * Int.fract (a / b) := by
  unfold jsMod jsTrunc
  rw [if_pos ha, Int.fract]
  have hba : b * (a / b) = a := by field_simp
  rw [mul_sub, hba]

/-- For positive `b` and nonnegative `a`, the JS remainder lies in `[0, b)`. -/
lemma jsMod_nonneg_lt (a b : ℚ) (hb : 0 < b) (ha : 0 ≤ a) :
    0 ≤ jsMod a b ∧ jsMod a b < b := by
  have hq : 0 ≤ a / b := div_nonneg ha hb.le
  rw [jsMod_eq_fract a b hb hq]
  constructor
  · exact mul_nonneg hb.le (Int.fract_nonneg _)
  · have := Int.fract_lt_one (a / b)
    nlinarith

/-- For positive `b`, the JS remainder always exceeds `-b`. -/
lemma jsMod_gt_neg (a b : ℚ) (hb : 0 < b) : -b < jsMod a b := by
  rcases le_or_lt 0 (a / b) with hq | hq
  · rw [jsMod_eq_fract a b hb hq]
    have := Int.fract_nonneg (a / b)
    nlinarith
  · unfold jsMod jsTrunc
    rw [if_neg (not_le.mpr hq)]
    have h1 : (⌈a / b⌉ : ℚ) < a / b + 1 := Int.ceil_lt_add_one _
    have hba : b * (a / b) = a := by field_simp
    nlinarith

/-- The double-remainder expression of `gsap.utils.wrap(0, b, ·)` lies in
`[0, b)` for every input, including negative ones. -/
lemma jsMod_wrap_mem (b v : ℚ) (hb : 0 < b) :
    0 ≤ jsMod (jsMod v b + b) b ∧ jsMod (jsMod v b + b) b < b := by
  refine jsMod_nonneg_lt _ _ hb ?_
  have := jsMod_gt_neg v b hb
  linarith

/-- `gsapWrap 0 b` is literally the double-remainder formula. -/
lemma gsapWrap_zero (b v : ℚ) :
    gsapWrap 0 b v = jsMod (jsMod v b + b) b := by
  simp [gsapWrap]

/-- A progress value already in `[0, 1)` is a fixed point of `wrap01`. -/
lemma wrap01_eq_self (p : ℚ) (h0 : 0 ≤ p) (h1 : p < 1) : wrap01 p = p := by
  have hf : ⌊p⌋ = 0 := Int.floor_eq_zero_iff.mpr ⟨h0, h1⟩
  have hm : jsMod p 1 = p := by
    unfold jsMod jsTrunc
    rw [div_one, if_pos h0, hf]
    simp
  unfold wrap01 gsapWrap
  rw [sub_zero, sub_zero, add_zero, hm]
  unfold jsMod jsTrunc
  rw [div_one, if_pos (by linarith)]
  have : ⌊p + 1⌋ = 1 := by
    rw [Int.floor_add_one, hf]
    norm_num
  rw [this]
  push_cast
  ring

/-- The output of `progressToScroll` always lies inside the safe zone
`[1, endv - 1]` when the scroll range is at least 2 units long. -/
lemma progressToScroll_mem (endv p : ℚ) (h : 2 ≤ endv) :
    1 ≤ progressToScroll endv p ∧ progressToScroll endv p ≤ endv - 1 := by
  unfold progressToScroll clamp
  exact ⟨le_min (by linarith) (le_max_left _ _), min_le_left _ _⟩

/-! Claim theorems. -/

/-- Claim C1: for every rational offset, including negative ones,
`wrapTime` (built as `gsap.utils.wrap(0, cycleDuration)`) equals
`((offset mod cycleDuration) + cycleDuration) mod cycleDuration` (JS
remainder), and its value is always nonnegative and strictly below the
seamless loop's duration. -/
theorem wrapTime_spec (d v : ℚ) (hd : 0 < d) :
    wrapTime d v = jsMod (jsMod v d + d) d ∧
    0 ≤ wrapTime d v ∧ wrapTime d v < d := by
  have h : wrapTime d v = jsMod (jsMod v d + d) d := gsapWrap_zero d v
  refine ⟨h, ?_, ?_⟩
  · rw [h]; exact (jsMod_wrap_mem d v hd).1
  · rw [h]; exact (jsMod_wrap_mem d v hd).2

/-- Witness for C1 at `d = 31/10`, `v = -7/2`. -/
theorem wrapTime_spec_witness :
    (0 : ℚ) < 31 / 10 ∧
    (wrapTime (31 / 10) (-7 / 2) = jsMod (jsMod (-7 / 2) (31 / 10) + 31 / 10) (31 / 10) ∧
      0 ≤ wrapTime (31 / 10) (-7 / 2) ∧ wrapTime (31 / 10) (-7 / 2) < 31 / 10) :=
  ⟨by norm_num, wrapTime_spec (31 / 10) (-7 / 2) (by norm_num)⟩

/-- Claim C2, counterexample: a single snap-path wrap event changes the
iteration counter by 2.  With `cycleDuration = 31/10`, `spacing = 1/10`,
`trigger.end = 3000`, `iteration = 0` and offset `31/5 = 6.2` (two full
cycles), `scrollToOffset` takes the wrap branch and calls
`wrap(Math.floor(2), ...)`, setting the iteration to `2` in one event:
the delta is neither `+1` nor `-1`. -/
theorem iteration_step_cex :
    (scrollToOffset (31 / 10) (1 / 10) 3000 0 (31 / 5)).wrapped = true ∧
    (scrollToOffset (31 / 10) (1 / 10) 3000 0 (31 / 5)).iteration - 0 = 2 ∧
    ¬((2 : ℤ) = 1 ∨ (2 : ℤ) = -1) := by
  have hsnap : snapTime (1 / 10) (31 / 5) = 31 / 5 := by
    norm_num [snapTime, round_eq]
  have hprog : (snapTime (1 / 10) (31 / 5) - (31 / 10) * (0 : ℤ)) / (31 / 10) = 2 := by
    rw [hsnap]; norm_num
  refine ⟨?_, ?_, by omega⟩
  · unfold scrollToOffset
    rw [if_pos (by rw [hprog]; norm_num)]
  · unfold scrollToOffset
    rw [if_pos (by rw [hprog]; norm_num), hprog]
    norm_num

/-- Claim C2, amended: every wrap event issued by the scroll driver has
iteration delta exactly `+1` or `-1`; but the snap path is not so
bounded: whenever `scrollToOffset` wraps, it changes the iteration by
`Math.floor(progress)` in a single event, a quantity of magnitude
greater than 1 whenever the snapped offset is more than one full cycle
away from `cycleDuration * iteration`. -/
theorem iteration_step_amended :
    (∀ (st : ScrollState) (delta : ℤ) (s : ℚ),
        onUpdate st = DriverAction.wrapCall delta s → delta = 1 ∨ delta = -1) ∧
    (∀ (d sp endv : ℚ) (iter : ℤ) (off : ℚ),
        (scrollToOffset d sp endv iter off).wrapped = true →
        (scrollToOffset d sp endv iter off).iteration - iter =
          ⌊(snapTime sp off - d * iter) / d⌋) := by
  constructor
  · intro st delta s h
    unfold onUpdate at h
    split_ifs at h <;> simp_all
  · intro d sp endv iter off h
    unfold scrollToOffset at h ⊢
    split_ifs at h ⊢ with hc
    ring

/-- Witness for the amended C2: the scroll driver at
`scroll = 3000 > end - 1 = 2999` issues `wrap(1, 1)`, and its delta is
`+1`; the snap path at the C2 input wraps with delta `⌊2⌋`. -/
theorem iteration_step_amended_witness :
    ((1 : ℤ) = 1 ∨ (1 : ℤ) = -1) ∧
    (scrollToOffset (31 / 10) (1 / 10) 3000 5 (217 / 10)).iteration - 5 =
      ⌊(snapTime (1 / 10) (217 / 10) - (31 / 10) * 5) / (31 / 10)⌋ := by
  constructor
  · exact iteration_step_amended.1 ⟨0, 3000, 1, 3000, 31 / 10⟩ 1 1 (by
      unfold onUpdate
      rw [if_pos (by norm_num)])
  · refine iteration_step_amended.2 (31 / 10) (1 / 10) 3000 5 (217 / 10) ?_
    have hsnap : snapTime (1 / 10) (217 / 10) = 217 / 10 := by
      norm_num [snapTime, round_eq]
    unfold scrollToOffset
    rw [if_pos (by rw [hsnap]; norm_num)]

/-- Claim C3: the scroll driver's `onUpdate` branches exactly as stated:
`scroll > end - 1` triggers `wrap(1, 1)`; otherwise `scroll < 1` with
negative direction triggers `wrap(-1, end - 1)`; otherwise the tween's
target offset becomes `(iteration + scroll / end) * duration` and the
scrub tween is invalidated and restarted. -/
theorem scroll_driver_branches (st : ScrollState) :
    (st.scroll > st.endPos - 1 → onUpdate st = DriverAction.wrapCall 1 1) ∧
    (¬st.scroll > st.endPos - 1 → st.scroll < 1 → st.direction < 0 →
      onUpdate st = DriverAction.wrapCall (-1) (st.endPos - 1)) ∧
    (¬st.scroll > st.endPos - 1 → ¬(st.scroll < 1 ∧ st.direction < 0) →
      onUpdate st =
        DriverAction.setOffsetAndRestart
          ((st.iteration + st.scroll / st.endPos) * st.duration)) := by
  refine ⟨?_, ?_, ?_⟩
  · intro h
    unfold onUpdate
    rw [if_pos h]
  · intro h1 h2 h3
    unfold onUpdate
    rw [if_neg h1, if_pos ⟨h2, h3⟩]
  · intro h1 h2
    unfold onUpdate selfProgress
    rw [if_neg h1, if_neg h2]

/-- Witness for C3 in the interior branch: at iteration 0, scroll 100,
direction +1, end 3000, duration 31/10, the driver sets the tween target
to `(0 + 100/3000) * (31/10)`. -/
theorem scroll_driver_branches_witness :
    onUpdate ⟨0, 100, 1, 3000, 31 / 10⟩ =
      DriverAction.setOffsetAndRestart
        ((((0 : ℤ) : ℚ) + (100 : ℚ) / 3000) * (31 / 10)) :=
  (scroll_driver_branches ⟨0, 100, 1, 3000, 31 / 10⟩).2.2
    (by norm_num) (by norm_num)

/-- Claim C4, counterexample: the spec's scenario says offset `0.05`
snaps to `0.0`, but `0.05` is exactly halfway between `0.0` and `0.1`
and JS `Math.round` rounds halves up, so `snapTime` sends `1/20` to
`1/10`, not to `0`. -/
theorem snap_path_cex :
    snapTime (1 / 10) (1 / 20) = 1 / 10 ∧ (1 / 10 : ℚ) ≠ 0 := by
  constructor
  · norm_num [snapTime, round_eq]
  · norm_num

/-- Claim C4, amended: whenever the recomputed progress
`(snapTime(offset) - cycleDuration * iteration) / cycleDuration` falls
outside `[0, 1)`, `scrollToOffset` goes through the wrap operation,
adding `⌊progress⌋` to the iteration; concretely, with
`cycleDuration = 31/10` and `iteration = 0`, offset `3.07` snaps to
`3.1`, its progress is `1`, a wrap of `+1` occurs and the progress
recomputed at the new iteration is `0`; offset `0.05` snaps to `0.1`
(`Math.round` rounds the exact midpoint up), which causes no wrap. -/
theorem snap_path_amended :
    (∀ (d sp endv : ℚ) (iter : ℤ) (off : ℚ),
        ((snapTime sp off - d * iter) / d ≥ 1 ∨ (snapTime sp off - d * iter) / d < 0) →
        (scrollToOffset d sp endv iter off).wrapped = true ∧
        (scrollToOffset d sp endv iter off).iteration =
          iter + ⌊(snapTime sp off - d * iter) / d⌋) ∧
    snapTime spacing (307 / 100) = 31 / 10 ∧
    (scrollToOffset (31 / 10) spacing 3000 0 (307 / 100)).wrapped = true ∧
    (scrollToOffset (31 / 10) spacing 3000 0 (307 / 100)).iteration = 1 ∧
    (snapTime spacing (307 / 100) - (31 / 10) *
      ((scrollToOffset (31 / 10) spacing 3000 0 (307 / 100)).iteration : ℚ)) / (31 / 10) = 0 ∧
    snapTime spacing (1 / 20) = 1 / 10 ∧
    (scrollToOffset (31 / 10) spacing 3000 0 (1 / 20)).wrapped = false := by
  have hsnap307 : snapTime spacing (307 / 100) = 31 / 10 := by
    norm_num [snapTime, spacing, round_eq]
  have hsnap05 : snapTime spacing (1 / 20) = 1 / 10 := by
    norm_num [snapTime, spacing, round_eq]
  have hprog307 : (snapTime spacing (307 / 100) - (31 / 10) * ((0 : ℤ) : ℚ)) / (31 / 10) = 1 := by
    rw [hsnap307]; norm_num
  have hprog05 : (snapTime spacing (1 / 20) - (31 / 10) * ((0 : ℤ) : ℚ)) / (31 / 10) = 1 / 31 := by
    rw [hsnap05]; norm_num
  have hwrap307 : (scrollToOffset (31 / 10) spacing 3000 0 (307 / 100)).wrapped = true ∧
      (scrollToOffset (31 / 10) spacing 3000 0 (307 / 100)).iteration = 1 := by
    unfold scrollToOffset
    rw [if_pos (by rw [hprog307]; norm_num), hprog307]
    refine ⟨rfl, ?_⟩
    norm_num
  refine ⟨?_, hsnap307, hwrap307.1, hwrap307.2, ?_, hsnap05, ?_⟩
  · intro d sp endv iter off h
    unfold scrollToOffset
    rw [if_pos h]
    exact ⟨rfl, rfl⟩
  · rw [hwrap307.2, hsnap307]
    norm_num
  · unfold scrollToOffset
    rw [if_neg (by rw [hprog05]; norm_num)]

/-- Witness for the amended C4: applies the general wrap clause at the
`3.07` scenario input. -/
theorem snap_path_amended_witness :
    (scrollToOffset (31 / 10) spacing 3000 0 (307 / 100)).wrapped = true ∧
    (scrollToOffset (31 / 10) spacing 3000 0 (307 / 100)).iteration =
      0 + ⌊(snapTime spacing (307 / 100) - (31 / 10) * ((0 : ℤ) : ℚ)) / (31 / 10)⌋ :=
  snap_path_amended.1 (31 / 10) spacing 3000 0 (307 / 100) (by
    have hsnap : snapTime spacing (307 / 100) = 31 / 10 := by
      norm_num [snapTime, spacing, round_eq]
    rw [hsnap]; norm_num)

/-- Claim C5, counterexample: releasing a drag performs no snap at all —
the `onDragEnd` handler's body is commented out — even at an offset
(`1/20`) that is not a multiple of the spacing, so nothing drives the
scroll range or the tween to a quantized state on drag release. -/
theorem interaction_end_cex :
    onDragEnd (31 / 10) (1 / 10) 3000 0 (1 / 20) = none ∧
    snapTime (1 / 10) (1 / 20) ≠ 1 / 20 := by
  constructor
  · rfl
  · norm_num [snapTime, round_eq]

/-- Claim C5, amended: when scroll deceleration settles, the `scrollEnd`
listener runs `scrollToOffset` on the current offset, which quantizes
the offset via `snapTime`, commands the scroll range to
`progressToScroll` of the recomputed progress, and — because that
commanded scroll lies inside `[1, end - 1]` whenever `end ≥ 2` — the
trigger update it provokes takes the interior branch of `onUpdate` and
invalidates and restarts the smoothing tween toward the corresponding
offset; that tween target equals the snapped offset exactly whenever
the snapped progress lies in `[0, 1)` with its scaled image inside the
clamp-free zone `[1, end - 1]`.  On drag release, however, nothing
happens (the snap call in `onDragEnd` is commented out). -/
theorem interaction_end_amended (d sp endv : ℚ) (iter : ℤ) (off : ℚ) (dir : ℤ)
    (h2 : 2 ≤ endv) :
    onScrollEnd d sp endv iter off = some (scrollToOffset d sp endv iter off) ∧
    (scrollToOffset d sp endv iter off).scrollCmd =
      progressToScroll endv ((snapTime sp off - d * iter) / d) ∧
    onUpdate ⟨(scrollToOffset d sp endv iter off).iteration,
              (scrollToOffset d sp endv iter off).scrollCmd, dir, endv, d⟩ =
      DriverAction.setOffsetAndRestart
        ((((scrollToOffset d sp endv iter off).iteration : ℚ) +
            (scrollToOffset d sp endv iter off).scrollCmd / endv) * d) ∧
    (0 < d → 0 ≤ (snapTime sp off - d * iter) / d → (snapTime sp off - d * iter) / d < 1 →
      1 ≤ (snapTime sp off - d * iter) / d * endv →
      (snapTime sp off - d * iter) / d * endv ≤ endv - 1 →
      (((scrollToOffset d sp endv iter off).iteration : ℚ) +
          (scrollToOffset d sp endv iter off).scrollCmd / endv) * d = snapTime sp off) ∧
    onDragEnd d sp endv iter off = none := by
  have hcmd : (scrollToOffset d sp endv iter off).scrollCmd =
      progressToScroll endv ((snapTime sp off - d * iter) / d) := by
    unfold scrollToOffset
    split_ifs <;> rfl
  refine ⟨rfl, hcmd, ?_, ?_, rfl⟩
  · obtain ⟨hge, hle⟩ := progressToScroll_mem endv ((snapTime sp off - d * iter) / d) h2
    simp only [onUpdate, selfProgress]
    split_ifs with ha hb
    · exfalso
      rw [hcmd] at ha
      linarith
    · exfalso
      have := hb.1
      rw [hcmd] at this
      linarith
    · rfl
  · intro hd h0 h1 hlo hhi
    have hnw : ¬((snapTime sp off - d * iter) / d ≥ 1 ∨
        (snapTime sp off - d * iter) / d < 0) := by
      push_neg
      exact ⟨h1, h0⟩
    have hend0 : (0 : ℚ) < endv := by linarith
    simp only [scrollToOffset, if_neg hnw]
    unfold progressToScroll clamp
    rw [wrap01_eq_self _ h0 h1, max_eq_right hlo, min_eq_right hhi,
      mul_div_cancel_right₀ _ hend0.ne', add_mul, div_mul_cancel₀ _ hd.ne']
    ring

/-- Witness for the amended C5 at `d = 31/10`, `spacing = 1/10`,
`end = 3000`, `iteration = 0`, offset `1/20`: the scroll-end snap
commands an in-range scroll value, the provoked trigger update restarts
the tween, and the tween target is exactly the snapped offset
`snapTime (1/10) (1/20)`; the drag-release handler does nothing. -/
theorem interaction_end_amended_witness :
    onUpdate ⟨(scrollToOffset (31 / 10) (1 / 10) 3000 0 (1 / 20)).iteration,
              (scrollToOffset (31 / 10) (1 / 10) 3000 0 (1 / 20)).scrollCmd, 1, 3000, 31 / 10⟩ =
      DriverAction.setOffsetAndRestart
        ((((scrollToOffset (31 / 10) (1 / 10) 3000 0 (1 / 20)).iteration : ℚ) +
            (scrollToOffset (31 / 10) (1 / 10) 3000 0 (1 / 20)).scrollCmd / 3000) * (31 / 10)) ∧
    (((scrollToOffset (31 / 10) (1 / 10) 3000 0 (1 / 20)).iteration : ℚ) +
        (scrollToOffset (31 / 10) (1 / 10) 3000 0 (1 / 20)).scrollCmd / 3000) * (31 / 10) =
      snapTime (1 / 10) (1 / 20) ∧
    onDragEnd (31 / 10) (1 / 10) 3000 0 (1 / 20) = none := by
  have hs : snapTime (1 / 10) (1 / 20) = 1 / 10 := by
    norm_num [snapTime, round_eq]
  have h0 : (0 : ℚ) ≤ (snapTime (1 / 10) (1 / 20) - 31 / 10 * ((0 : ℤ) : ℚ)) / (31 / 10) := by
    rw [hs]
    norm_num
  have h1 : (snapTime (1 / 10) (1 / 20) - 31 / 10 * ((0 : ℤ) : ℚ)) / (31 / 10) < 1 := by
    rw [hs]
    norm_num
  have hlo : 1 ≤ (snapTime (1 / 10) (1 / 20) - 31 / 10 * ((0 : ℤ) : ℚ)) / (31 / 10) * 3000 := by
    rw [hs]
    norm_num
  have hhi : (snapTime (1 / 10) (1 / 20) - 31 / 10 * ((0 : ℤ) : ℚ)) / (31 / 10) * 3000 ≤
      3000 - 1 := by
    rw [hs]
    norm_num
  exact ⟨(interaction_end_amended (31 / 10) (1 / 10) 3000 0 (1 / 20) 1 (by norm_num)).2.2.1,
    (interaction_end_amended (31 / 10) (1 / 10) 3000 0 (1 / 20) 1 (by norm_num)).2.2.2.1
      (by norm_num) h0 h1 hlo hhi,
    (interaction_end_amended (31 / 10) (1 / 10) 3000 0 (1 / 20) 1 (by norm_num)).2.2.2.2⟩

/-- Claim C6, counterexample: `buildSeamlessLoop` invoked with an empty
item list does not fail; it returns a degenerate timeline whose
`cycleDuration` is `0`. -/
theorem build_reject_cex :
    (buildSeamlessLoop 0 (1 / 10) 1).cycleDuration = 0 := by
  simp [buildSeamlessLoop]

/-- Claim C6, amended: `buildSeamlessLoop` performs no input validation:
for every item count and spacing it returns a timeline with
`cycleDuration = spacing * N`, and for the invalid configurations
(`N = 0` or `spacing ≤ 0`) that cycle duration is `≤ 0` — a degenerate
cycle is produced instead of a build-time rejection. -/
theorem build_no_validation (n : ℕ) (sp dur : ℚ) :
    (buildSeamlessLoop n sp dur).cycleDuration = sp * n ∧
    (n = 0 ∨ sp ≤ 0 → (buildSeamlessLoop n sp dur).cycleDuration ≤ 0) := by
  constructor
  · rfl
  · rintro (h | h)
    · simp [buildSeamlessLoop, h]
    · simp only [buildSeamlessLoop]
      have : (0 : ℚ) ≤ (n : ℚ) := by positivity
      nlinarith

/-- Witness for the amended C6 at `N = 0`, `spacing = 1/10`. -/
theorem build_no_validation_witness :
    (buildSeamlessLoop 0 (1 / 10) 1).cycleDuration ≤ 0 :=
  (build_no_validation 0 (1 / 10) 1).2 (Or.inl rfl)

/-- Claim C7: for scroll values strictly inside `[1, end - 1]`, turning a
scroll value into an offset the way the scroll driver does
(`offset = (iteration + s / end) * cycleDuration`) and mapping it back
through `progress = (offset - cycleDuration * iteration) / cycleDuration`
and `progressToScroll` returns exactly the same scroll value (exact
equality over `ℚ`, hence within any floating tolerance). -/
theorem offset_scroll_round_trip (d endv s : ℚ) (iter : ℤ)
    (hd : 0 < d) (h1 : 1 < s) (h2 : s < endv - 1) :
    progressToScroll endv ((((iter : ℚ) + s / endv) * d - d * iter) / d) = s := by
  have hend : 0 < endv := by linarith
  have hp : (((iter : ℚ) + s / endv) * d - d * iter) / d = s / endv := by
    field_simp
    ring
  rw [hp]
  have hs0 : 0 ≤ s / endv := div_nonneg (by linarith) hend.le
  have hs1 : s / endv < 1 := (div_lt_one hend).mpr (by linarith)
  unfold progressToScroll
  rw [wrap01_eq_self _ hs0 hs1, div_mul_cancel₀ _ hend.ne']
  unfold clamp
  rw [max_eq_right (by linarith), min_eq_right (by linarith)]

/-- Witness for C7 at `d = 31/10`, `end = 3000`, `iteration = 5`, `s = 2`. -/
theorem offset_scroll_round_trip_witness :
    progressToScroll 3000 (((((5 : ℤ) : ℚ) + 2 / 3000) * (31 / 10) - (31 / 10) * 5) / (31 / 10)) = 2 :=
  offset_scroll_round_trip (31 / 10) 3000 2 5 (by norm_num) (by norm_num) (by norm_num)

/-- Claim C8: during a drag the handler sets the tween's target offset to
`startOffset + (dragStartX - currentX) * 0.001`, writing it directly into
the tween (a `setOffsetAndRestart`, never a scroll-range or wrap
command); a 1000px leftward drag from `startOffset = 0` yields target
offset `1`, which at `spacing = 0.1` is item index `10`. -/
theorem drag_target (startOffset startX x : ℚ) :
    onDrag startOffset startX x =
      DriverAction.setOffsetAndRestart (startOffset + (startX - x) * (1 / 1000)) ∧
    dragTargetOffset 0 startX (startX - 1000) = 1 ∧
    dragTargetOffset 0 startX (startX - 1000) / spacing = 10 := by
  refine ⟨rfl, ?_, ?_⟩
  · unfold dragTargetOffset
    ring
  · unfold dragTargetOffset spacing
    ring

/-- Claim C9: the snap quantization is idempotent — the offset resulting
from one snap is a multiple of the spacing, hence a fixed point of
`snapTime`, so applying the snap policy twice with no intervening input
yields the same quantized offset both times. -/
theorem snap_idempotent (sp x : ℚ) (hsp : sp ≠ 0) :
    snapTime sp (snapTime sp x) = snapTime sp x := by
  unfold snapTime
  rw [mul_div_cancel_right₀ _ hsp, round_intCast]

/-- Witness for C9 at `spacing = 1/10`, offset `1/20`. -/
theorem snap_idempotent_witness :
    (1 / 10 : ℚ) ≠ 0 ∧
    snapTime (1 / 10) (snapTime (1 / 10) (1 / 20)) = snapTime (1 / 10) (1 / 20) :=
  ⟨by norm_num, snap_idempotent (1 / 10) (1 / 20) (by norm_num)⟩

/-- Claim C10: `progressToScroll` first wraps its progress argument into
`[0, 1)` with `gsap.utils.wrap(0, 1, ·)` and then clamps the scaled
value, so whenever `trigger.end ≥ 2` its output lies in
`[1, trigger.end - 1]` for every rational progress input — the snap path
never commands a scroll position inside the reserved 1-unit boundary
buffers. -/
theorem progressToScroll_bounds (endv p : ℚ) (h : 2 ≤ endv) :
    0 ≤ wrap01 p ∧ wrap01 p < 1 ∧
    progressToScroll endv p = clamp 1 (endv - 1) (wrap01 p * endv) ∧
    1 ≤ progressToScroll endv p ∧ progressToScroll endv p ≤ endv - 1 := by
  have hw : 0 ≤ wrap01 p ∧ wrap01 p < 1 := by
    have heq : wrap01 p = jsMod (jsMod p 1 + 1) 1 := gsapWrap_zero 1 p
    rw [heq]
    exact jsMod_wrap_mem 1 p one_pos
  refine ⟨hw.1, hw.2, rfl, ?_, ?_⟩
  · unfold progressToScroll clamp
    exact le_min (by linarith) (le_max_left _ _)
  · unfold progressToScroll clamp
    exact min_le_left _ _

/-- Witness for C10 at `end = 3000`, progress `7/3`. -/
theorem progressToScroll_bounds_witness :
    (2 : ℚ) ≤ 3000 ∧
    (0 ≤ wrap01 (7 / 3) ∧ wrap01 (7 / 3) < 1 ∧
      progressToScroll 3000 (7 / 3) = clamp 1 (3000 - 1) (wrap01 (7 / 3) * 3000) ∧
      1 ≤ progressToScroll 3000 (7 / 3) ∧ progressToScroll 3000 (7 / 3) ≤ 3000 - 1) :=
  ⟨by norm_num, progressToScroll_bounds 3000 (7 / 3) (by norm_num)⟩
